import Mathlib

/-!
Verification of the polling-and-fallback core of the `snmp_printer`
integration (`src/custom_components/snmp_printer/__init__.py`).

The Python code is shallowly embedded: Python dicts become association
lists of `String × PyVal`, awaited client calls become `Except String`
values supplied as inputs (the error string is `str(err)`), and the body
of `async_update_data` (lines 86-153) is translated clause by clause.
-/

/-- Values of the dynamic (Python) data model: strings, integers,
booleans, `None`, dicts and lists. -/
inductive PyVal where
  | str (s : String)
  | int (n : Int)
  | bool (b : Bool)
  | none
  | dict (d : List (String × PyVal))
  | list (l : List PyVal)

/-- A Python dict with string keys, as an ordered association list. -/
abbrev Dict := List (String × PyVal)

/-- `d.get(k)` without default: the value at the first matching key. -/
def dget : Dict → String → Option PyVal
  | [], _ => Option.none
  | (k1, v1) :: rest, k => if k1 = k then some v1 else dget rest k

/-- `k in d`: whether the dict has the key. -/
def dhas : Dict → String → Bool
  | [], _ => false
  | (k1, _) :: rest, k => if k1 = k then true else dhas rest k

/-- Replace the value at an existing key, preserving insertion order. -/
def dsetReplace : Dict → String → PyVal → Dict
  | [], _, _ => []
  | (k1, v1) :: rest, k, v =>
      if k1 = k then (k, v) :: dsetReplace rest k v
      else (k1, v1) :: dsetReplace rest k v

/-- `d[k] = v`: Python dict assignment (replace in place when the key
exists, append otherwise). -/
def dset (d : Dict) (k : String) (v : PyVal) : Dict :=
  if dhas d k then dsetReplace d k v else d ++ [(k, v)]

/-- `{**a, **b}`: keys of `a` in order (values overridden by `b` where
present), then the keys only in `b`. -/
def dictMerge (a b : Dict) : Dict :=
  (a.map (fun p => match dget b p.1 with
    | some v => (p.1, v)
    | Option.none => p)) ++ b.filter (fun p => !(dhas a p.1))

/-- `d.get(k)` returning `None` when the key is absent. -/
def pyGet (d : Dict) (k : String) : PyVal :=
  match dget d k with
  | some v => v
  | Option.none => PyVal.none

/-- `d.get(k, default)`. -/
def pyGetD (d : Dict) (k : String) (dflt : PyVal) : PyVal :=
  match dget d k with
  | some v => v
  | Option.none => dflt

/-- Python truthiness of a value. -/
def pyTruthy : PyVal → Bool
  | .str s => !s.data.isEmpty
  | .int n => decide (n ≠ 0)
  | .bool b => b
  | .none => false
  | .dict d => !d.isEmpty
  | .list l => !l.isEmpty

/-- Truthiness of `d.get(k)`: an absent key is falsy. -/
def pyTruthyOpt : Option PyVal → Bool
  | some v => pyTruthy v
  | Option.none => false

/-- Convert the result of `.get` to the value actually stored by an
assignment (`None` when the key was absent). -/
def optPyVal : Option PyVal → PyVal
  | some v => v
  | Option.none => PyVal.none

/-- `str.lower()` (character-wise, as the code applies it to `str(err)`). -/
def pyLower (s : String) : String := String.mk (s.data.map Char.toLower)

/-- Whether `n` is a prefix of `h` (Boolean, used by the substring scan). -/
def startsWith : List Char → List Char → Bool
  | [], _ => true
  | _ :: _, [] => false
  | a :: as, b :: bs => a == b && startsWith as bs

/-- Whether `n` occurs as a contiguous run inside `h`. -/
def containsSub (n : List Char) : List Char → Bool
  | [] => startsWith n []
  | c :: cs => startsWith n (c :: cs) || containsSub n cs

/-- Python `needle in haystack` on strings: substring containment. -/
def pyContains (needle haystack : String) : Bool :=
  containsSub needle.data haystack.data

/-- The fixed keyword list of lines 124-134. -/
def connectionKeywords : List String :=
  ["timeout", "unreachable", "no route", "connection", "network",
   "host", "refused", "failed", "no response"]

/-- Lines 121-135: `any(keyword in str(err).lower() for keyword in [...])`. -/
def isConnectionError (msg : String) : Bool :=
  connectionKeywords.any (fun k => pyContains k (pyLower msg))

/-- The two classification outcomes of the failure classifier. -/
inductive Classification where
  | Unreachable
  | OtherFailure
deriving DecidableEq

/-- The failure classifier: the `is_connection_error` test of lines
120-135, presented as the spec's two-outcome classification. -/
def classify (msg : String) : Classification :=
  if isConnectionError msg then Classification.Unreachable
  else Classification.OtherFailure

/-- Whether an `Except` computation succeeded. -/
def exceptOk {ε α : Type} : Except ε α → Bool
  | .ok _ => true
  | .error _ => false

/-- Outcome of one HTTP(S) `session.get`: a completed response with a
status code, or a raised exception (timeouts included). -/
inductive ReqOutcome where
  | ok (status : Nat)
  | exn

/-- One `try` block of `check_web_interface` (lines 32-40 resp. 43-51):
`some true` when the block returned `True`, `none` when it fell through
(status ≥ 500, or any exception swallowed by `except Exception: pass`). -/
def tryGetBelow500 : ReqOutcome → Option Bool
  | .ok s => if s < 500 then some true else Option.none
  | .exn => Option.none

/-- Lines 27-53: try HTTP, then HTTPS, else `False`. Total by
construction: every exception outcome is absorbed, none propagates. -/
def check_web_interface (http_req https_req : ReqOutcome) : Bool :=
  match tryGetBelow500 http_req with
  | some b => b
  | Option.none =>
      match tryGetBelow500 https_req with
      | some b => b
      | Option.none => false

/-- Whether a request outcome is a completed response with status below
500 (the condition named by the spec for the probe to report `true`). -/
def completesBelow500 : ReqOutcome → Bool
  | .ok s => decide (s < 500)
  | .exn => false

/-- The environment's answers to the seven protocol-client calls of one
cycle (each `await snmp_client.get_*` either returns a value or raises
with message `str(err)`), plus the outcomes of the two web-probe
requests. -/
structure ClientOutcomes where
  system_info : Except String Dict
  device_info : Except String Dict
  cover_status : Except String PyVal
  supplies : Except String PyVal
  input_trays : Except String PyVal
  display_text : Except String PyVal
  printer_errors : Except String PyVal
  http_req : ReqOutcome
  https_req : ReqOutcome

/-- Lines 89-105: the assembly of the `data` dict for one cycle. The
awaits are evaluated in source order; the first failure aborts the
whole assembly with that error (no partial dict is ever built). -/
def assembleData (c : ClientOutcomes) : Except String Dict :=
  match c.system_info with
  | .error e => .error e
  | .ok system_info =>
   match c.device_info with
   | .error e => .error e
   | .ok device_info =>
    match c.cover_status with
    | .error e => .error e
    | .ok cover =>
     match c.supplies with
     | .error e => .error e
     | .ok supplies =>
      match c.input_trays with
      | .error e => .error e
      | .ok input_trays =>
       match c.display_text with
       | .error e => .error e
       | .ok display_text =>
        match c.printer_errors with
        | .error e => .error e
        | .ok printer_errors =>
          .ok [("info", PyVal.dict (dictMerge system_info device_info)),
               ("status", PyVal.dict device_info),
               ("cover_status", PyVal.dict [("state", cover)]),
               ("page_count", pyGetD device_info "page_counts"
                  (PyVal.dict [("total", pyGet device_info "page_count")])),
               ("supplies", supplies),
               ("input_trays", input_trays),
               ("display_text", display_text),
               ("errors", printer_errors),
               ("web_interface_available",
                  PyVal.bool (check_web_interface c.http_req c.https_req))]

/-- The per-cycle inputs from the environment: client outcomes, the
outcome of `store.async_save` (lines 113), `datetime.now().isoformat()`
(line 110) and the configured host (line 111). -/
structure CycleInput where
  client : ClientOutcomes
  save_result : Except String Unit
  now : String
  host : String

/-- Lines 108-112: the cache record written on success. -/
def cacheRecordOf (data : Dict) (ts host : String) : Dict :=
  [("data", PyVal.dict data), ("timestamp", PyVal.str ts),
   ("host", PyVal.str host)]

/-- The whole `try` body (lines 88-118): assemble, build the cache
record, save it, then mark the data online and return it together with
the record that was persisted. Any raise lands in the `except` handler. -/
def attemptCycle (inp : CycleInput) : Except String (Dict × Dict) :=
  match assembleData inp.client with
  | .error e => .error e
  | .ok data =>
      match inp.save_result with
      | .error e => .error e
      | .ok _ => .ok (dset data "is_online" (PyVal.bool true),
                      cacheRecordOf data inp.now inp.host)

/-- Lines 146-148: `cached_data["data"].copy()` (the records written by
this integration always store a dict under `"data"`; on any other value
Python would raise, a case never reached from this code). -/
def copyAsDict : Option PyVal → Dict
  | some (PyVal.dict d) => d
  | _ => []

/-- Lines 146-150: the stale fallback snapshot built from the startup
cache — a copy of its `"data"` dict with `is_online` set to `False` and
`offline_since` set to the record's stored timestamp. -/
def staleOf (cached_data : Dict) : Dict :=
  dset (dset (copyAsDict (dget cached_data "data"))
             "is_online" (PyVal.bool false))
       "offline_since" (optPyVal (dget cached_data "timestamp"))

/-- One cycle's outcome: the value returned to the coordinator (or the
`UpdateFailed` message raised), and the cache record persisted by the
cycle, if any. -/
structure CycleResult where
  result : Except String Dict
  saved : Option Dict

/-- Lines 86-153, `async_update_data`: run the `try` body; on a raise,
classify the message and either publish the stale copy of the startup
cache (truthy cached data and a connection-keyword match) or re-raise
as `UpdateFailed`. `cached_data` is the dict loaded once at line 83 —
the closure never reassigns it. -/
def async_update_data (cached_data : Dict) (inp : CycleInput) : CycleResult :=
  match attemptCycle inp with
  | .ok (data, cache_data) => ⟨.ok data, some cache_data⟩
  | .error err =>
      if pyTruthyOpt (dget cached_data "data") && isConnectionError err then
        ⟨.ok (staleOf cached_data), Option.none⟩
      else
        ⟨.error ("Error fetching printer data: " ++ err), Option.none⟩

/-- A sequence of refresh cycles of one entry: every cycle closes over
the same `cached_data` value loaded at startup (line 83; the variable is
never written again, so no cycle's outcome feeds the next one's cache). -/
def runCycles (cached_data : Dict) (inputs : List CycleInput) : List CycleResult :=
  inputs.map (async_update_data cached_data)

/-- How the `DataUpdateCoordinator` tracks published state: a returned
dict replaces it, a raised `UpdateFailed` leaves the previously
published data unchanged. -/
def publishStep (prev : Option Dict) (r : Except String Dict) : Option Dict :=
  match r with
  | .ok d => some d
  | .error _ => prev

/-- Outcome of the underlying storage read at startup: a stored record,
an absent file, or a read error. -/
inductive LoadOutcome where
  | present (d : Dict)
  | absent
  | readError

/-- Modelled from the spec: `store.async_load` (the homeassistant
`Store` helper, not part of `src/`) — "`load() → CacheRecord | absent`
... never fails the caller (a read error or absent file yields
absent)". -/
def store_async_load : LoadOutcome → Option Dict
  | .present d => some d
  | .absent => Option.none
  | .readError => Option.none

/-- Line 83: `cached_data = await store.async_load() or {}`. -/
def loadCachedData (o : LoadOutcome) : Dict :=
  match store_async_load o with
  | some d => if pyTruthy (PyVal.dict d) then d else []
  | Option.none => []

/-! ### Sample environments used by concrete runs -/

/-- A cycle where every client query succeeds. -/
def okClient : ClientOutcomes :=
  { system_info := .ok [("description", PyVal.str "printer")]
  , device_info := .ok [("page_count", PyVal.int 7)]
  , cover_status := .ok (PyVal.str "closed")
  , supplies := .ok (PyVal.list
      [PyVal.dict [("index", PyVal.int 1), ("percentage", PyVal.int 42)]])
  , input_trays := .ok (PyVal.list [])
  , display_text := .ok (PyVal.str "ready")
  , printer_errors := .ok PyVal.none
  , http_req := .ok 200
  , https_req := .exn }

/-- A cycle whose first client query raises with the given message. -/
def failClient (e : String) : ClientOutcomes :=
  { okClient with system_info := .error e }

/-- A fully successful cycle input (save succeeds too). -/
def okInput : CycleInput :=
  { client := okClient, save_result := .ok ()
  , now := "2024-01-01T00:00:00", host := "10.0.0.2" }

/-- A cycle whose assembly raises with message `timeout`. -/
def timeoutInput : CycleInput := { okInput with client := failClient "timeout" }

/-- A cycle whose assembly raises with message `authentication failed`. -/
def authFailInput : CycleInput :=
  { okInput with client := failClient "authentication failed" }

/-- A cycle whose queries all succeed but whose save raises `disk full`. -/
def saveFailInput : CycleInput := { okInput with save_result := .error "disk full" }

/-- A cycle whose assembly raises with a message matching no keyword. -/
def badCredsInput : CycleInput :=
  { okInput with client := failClient "bad credentials" }

/-- A well-formed startup cache record, as saved by a successful cycle. -/
def sampleCache : Dict :=
  cacheRecordOf [("x", PyVal.int 1)] "2023-12-31T23:00:00" "10.0.0.2"

/-- The dict assembled from `okClient` (evaluated form). -/
def freshSample : Dict := (assembleData okClient).toOption.getD []

/-! ### Dictionary lemmas -/

/-- A key the dict does not have looks up to `none`. -/
theorem dget_of_dhas_false {d : Dict} {k : String} (h : dhas d k = false) :
    dget d k = Option.none := by
  induction d with
  | nil => rfl
  | cons p rest ih =>
    obtain ⟨k1, v1⟩ := p
    by_cases hk : k1 = k
    · simp [dhas, hk] at h
    · simp [dhas, hk] at h
      simp [dget, hk, ih h]

/-- Replacing at a present key makes it look up to the new value. -/
theorem dget_dsetReplace_self {d : Dict} {k : String} {v : PyVal}
    (h : dhas d k = true) : dget (dsetReplace d k v) k = some v := by
  induction d with
  | nil => simp [dhas] at h
  | cons p rest ih =>
    obtain ⟨k1, v1⟩ := p
    by_cases hk : k1 = k
    · simp [dsetReplace, hk, dget]
    · simp [dhas, hk] at h
      simp [dsetReplace, hk, dget, ih h]

/-- Replacing at one key leaves every other key's lookup unchanged. -/
theorem dget_dsetReplace_other {d : Dict} {k k2 : String} {v : PyVal}
    (h : k2 ≠ k) : dget (dsetReplace d k v) k2 = dget d k2 := by
  induction d with
  | nil => rfl
  | cons p rest ih =>
    obtain ⟨k1, v1⟩ := p
    by_cases hk : k1 = k
    · have : ¬ k = k2 := fun hkk => h hkk.symm
      simp [dsetReplace, hk, dget, this, ih]
    · simp [dsetReplace, hk, dget, ih]

/-- Appending a fresh binding at the end: lookup at that key. -/
theorem dget_append_self {d : Dict} {k : String} {v : PyVal}
    (h : dget d k = Option.none) : dget (d ++ [(k, v)]) k = some v := by
  induction d with
  | nil => simp [dget]
  | cons p rest ih =>
    obtain ⟨k1, v1⟩ := p
    by_cases hk : k1 = k
    · simp [dget, hk] at h
    · simp [dget, hk] at h ⊢
      exact ih h

/-- Appending a binding at the end: lookup at any other key. -/
theorem dget_append_other {d : Dict} {k k2 : String} {v : PyVal}
    (h : k2 ≠ k) : dget (d ++ [(k, v)]) k2 = dget d k2 := by
  induction d with
  | nil =>
    have hne : ¬ k = k2 := fun hkk => h hkk.symm
    simp [dget, hne]
  | cons p rest ih =>
    obtain ⟨k1, v1⟩ := p
    by_cases hk : k1 = k2
    · simp [dget, hk]
    · simp [dget, hk, ih]

/-- Assignment makes the key look up to the assigned value. -/
theorem dget_dset_self (d : Dict) (k : String) (v : PyVal) :
    dget (dset d k v) k = some v := by
  unfold dset
  by_cases h : dhas d k
  · simp [h, dget_dsetReplace_self h]
  · have hf : dhas d k = false := by simpa using h
    simp [hf, dget_append_self (dget_of_dhas_false hf)]

/-- Assignment leaves every other key's lookup unchanged. -/
theorem dget_dset_other (d : Dict) {k k2 : String} (v : PyVal)
    (h : k2 ≠ k) : dget (dset d k v) k2 = dget d k2 := by
  unfold dset
  by_cases hd : dhas d k
  · simp [hd, dget_dsetReplace_other h]
  · simp [hd, dget_append_other h]

/-! ### Substring-scan characterization -/

/-- `startsWith n h` decides exactly "n is an initial run of h". -/
theorem startsWith_iff (n h : List Char) :
    startsWith n h = true ↔ ∃ t, h = n ++ t := by
  induction n generalizing h with
  | nil => simp [startsWith]
  | cons a as ih =>
    cases h with
    | nil => simp [startsWith]
    | cons b bs =>
      simp only [startsWith, Bool.and_eq_true, beq_iff_eq, ih,
        List.cons_append, List.cons.injEq]
      constructor
      · rintro ⟨hab, t, ht⟩
        exact ⟨t, hab.symm, ht⟩
      · rintro ⟨t, hab, ht⟩
        exact ⟨hab.symm, t, ht⟩

/-- `containsSub n h` decides exactly "n occurs contiguously in h". -/
theorem containsSub_iff (n h : List Char) :
    containsSub n h = true ↔ ∃ pre post, h = pre ++ n ++ post := by
  induction h with
  | nil =>
    simp only [containsSub, startsWith_iff]
    constructor
    · rintro ⟨t, ht⟩
      rcases List.append_eq_nil.mp ht.symm with ⟨hn, htl⟩
      exact ⟨[], [], by simp [hn, htl]⟩
    · rintro ⟨pre, post, hp⟩
      rcases List.append_eq_nil.mp (List.append_eq_nil.mp hp.symm).1 with ⟨hpre, hn⟩
      exact ⟨[], by simp [hn]⟩
  | cons c cs ih =>
    simp only [containsSub, Bool.or_eq_true, startsWith_iff, ih]
    constructor
    · rintro (⟨t, ht⟩ | ⟨pre, post, hp⟩)
      · exact ⟨[], t, by simpa using ht⟩
      · exact ⟨c :: pre, post, by simp [hp]⟩
    · rintro ⟨pre, post, hp⟩
      cases pre with
      | nil => exact Or.inl ⟨post, by simpa using hp⟩
      | cons x xs =>
        rcases List.cons.injEq .. ▸ hp with ⟨hcx, hcs⟩
        exact Or.inr ⟨xs, post, by simpa using hcs⟩

/-! ### Inversion lemmas for the cycle body -/

/-- A successfully assembled dict never carries the online/staleness
keys: they are set only after assembly (line 116) or in the fallback
branch (lines 147-148). -/
theorem assembleData_ok_keys {c : ClientOutcomes} {d : Dict}
    (h : assembleData c = .ok d) :
    dget d "is_online" = Option.none ∧ dget d "offline_since" = Option.none := by
  unfold assembleData at h
  cases h1 : c.system_info <;> rw [h1] at h
  · exact Except.noConfusion h
  cases h2 : c.device_info <;> rw [h2] at h
  · exact Except.noConfusion h
  cases h3 : c.cover_status <;> rw [h3] at h
  · exact Except.noConfusion h
  cases h4 : c.supplies <;> rw [h4] at h
  · exact Except.noConfusion h
  cases h5 : c.input_trays <;> rw [h5] at h
  · exact Except.noConfusion h
  cases h6 : c.display_text <;> rw [h6] at h
  · exact Except.noConfusion h
  cases h7 : c.printer_errors <;> rw [h7] at h
  · exact Except.noConfusion h
  injection h with h
  subst h
  exact ⟨rfl, rfl⟩

/-- A successful `try` body means assembly and save both succeeded, the
returned dict is the assembled one marked online, and the persisted
record is the assembled dict with this cycle's timestamp and host. -/
theorem attemptCycle_ok_inv {inp : CycleInput} {p : Dict × Dict}
    (h : attemptCycle inp = .ok p) :
    ∃ d, assembleData inp.client = .ok d ∧ exceptOk inp.save_result = true ∧
      p = (dset d "is_online" (PyVal.bool true),
           cacheRecordOf d inp.now inp.host) := by
  unfold attemptCycle at h
  cases ha : assembleData inp.client <;> rw [ha] at h
  · exact Except.noConfusion h
  · cases hs : inp.save_result <;> rw [hs] at h
    · exact Except.noConfusion h
    · injection h with h
      exact ⟨_, rfl, rfl, h.symm⟩

/-- An assembly failure makes the whole `try` body fail with the same
message. -/
theorem attemptCycle_error_of_assemble {inp : CycleInput} {e : String}
    (h : assembleData inp.client = .error e) : attemptCycle inp = .error e := by
  unfold attemptCycle
  rw [h]

/-- A save failure after a successful assembly makes the `try` body
fail with the save's message. -/
theorem attemptCycle_error_of_save {inp : CycleInput} {d : Dict} {e : String}
    (hq : assembleData inp.client = .ok d) (hs : inp.save_result = .error e) :
    attemptCycle inp = .error e := by
  unfold attemptCycle
  rw [hq, hs]

/-- A successful assembly and save make the `try` body succeed with the
online-marked dict and the persisted record. -/
theorem attemptCycle_ok_of {inp : CycleInput} {d : Dict}
    (hq : assembleData inp.client = .ok d) (hs : inp.save_result = .ok ()) :
    attemptCycle inp = .ok (dset d "is_online" (PyVal.bool true),
                            cacheRecordOf d inp.now inp.host) := by
  unfold attemptCycle
  rw [hq, hs]

/-- A successful `try` body is returned as-is together with the record
it persisted. -/
theorem async_update_data_ok {cached_data : Dict} {inp : CycleInput}
    {data cache_data : Dict} (h : attemptCycle inp = .ok (data, cache_data)) :
    async_update_data cached_data inp = ⟨.ok data, some cache_data⟩ := by
  unfold async_update_data
  rw [h]

/-- A failed `try` body lands in the `except` handler: stale fallback
when the startup cache's data is truthy and the message matches a
connectivity keyword, re-raise otherwise; nothing is persisted. -/
theorem async_update_data_error {cached_data : Dict} {inp : CycleInput}
    {e : String} (h : attemptCycle inp = .error e) :
    async_update_data cached_data inp =
      (if pyTruthyOpt (dget cached_data "data") && isConnectionError e then
        ⟨.ok (staleOf cached_data), Option.none⟩
      else ⟨.error ("Error fetching printer data: " ++ e), Option.none⟩) := by
  unfold async_update_data
  rw [h]

/-! ### Claim theorems -/

/-- C6 (confirmed): the failure classifier returns `Unreachable` exactly
when the failure's textual description, lowercased, contains one of the
nine fixed substrings, and `OtherFailure` exactly when it contains none
of them. -/
theorem c6_classifier_iff (msg : String) :
    (classify msg = Classification.Unreachable ↔
      ∃ k ∈ connectionKeywords, ∃ pre post,
        (pyLower msg).data = pre ++ k.data ++ post) ∧
    (classify msg = Classification.OtherFailure ↔
      ¬ ∃ k ∈ connectionKeywords, ∃ pre post,
        (pyLower msg).data = pre ++ k.data ++ post) := by
  have key : isConnectionError msg = true ↔
      ∃ k ∈ connectionKeywords, ∃ pre post,
        (pyLower msg).data = pre ++ k.data ++ post := by
    unfold isConnectionError
    rw [List.any_eq_true]
    exact exists_congr fun k => and_congr_right fun _ => by
      unfold pyContains
      exact containsSub_iff _ _
  constructor
  · rw [← key]
    by_cases hc : isConnectionError msg <;> simp [classify, hc]
  · rw [← key]
    by_cases hc : isConnectionError msg <;> simp [classify, hc]

/-- C9 (confirmed, load modelled from the spec): the startup cache load
never fails the caller — an absent file or a read error degrades to the
empty dict ("no cache available"), a stored record is used as loaded. -/
theorem c9_load_never_fails :
    loadCachedData LoadOutcome.absent = [] ∧
    loadCachedData LoadOutcome.readError = [] ∧
    ∀ d : Dict, loadCachedData (LoadOutcome.present d) =
      if pyTruthy (PyVal.dict d) then d else [] :=
  ⟨rfl, rfl, fun _ => rfl⟩

/-- C10 (confirmed): the web-interface probe is total — it returns
`true` exactly when the HTTP or the HTTPS request completes with a
status below 500, and its outcome never changes whether an assembly
(hence a refresh cycle) succeeds. -/
theorem c10_probe_total (a b : ReqOutcome) (c : ClientOutcomes) :
    check_web_interface a b = (completesBelow500 a || completesBelow500 b) ∧
    exceptOk (assembleData { c with http_req := a, https_req := b }) =
      exceptOk (assembleData c) := by
  obtain ⟨si, di, cso, su, it, dt, pe, hr, hs⟩ := c
  constructor
  · cases a <;> cases b <;>
      simp only [check_web_interface, tryGetBelow500, completesBelow500] <;>
      (repeat' split) <;> simp_all
  · cases si <;> cases di <;> cases cso <;> cases su <;> cases it <;>
      cases dt <;> cases pe <;> rfl

/-- The stale fallback dict always carries `is_online = False`. -/
theorem dget_staleOf_is_online (cached_data : Dict) :
    dget (staleOf cached_data) "is_online" = some (PyVal.bool false) := by
  unfold staleOf
  rw [dget_dset_other _ _ (by decide), dget_dset_self]

/-- The stale fallback dict carries `offline_since` = the cache's stored
timestamp (`None` only if the record had no timestamp). -/
theorem dget_staleOf_offline_since (cached_data : Dict) :
    dget (staleOf cached_data) "offline_since" =
      some (optPyVal (dget cached_data "timestamp")) := by
  unfold staleOf
  rw [dget_dset_self]

/-- A stale fallback dict is never an online-marked fresh dict: the two
disagree at the `is_online` key. -/
theorem staleOf_ne_freshMark (cached_data d0 : Dict) :
    staleOf cached_data ≠ dset d0 "is_online" (PyVal.bool true) := by
  intro hcontra
  have h1 := dget_staleOf_is_online cached_data
  rw [hcontra, dget_dset_self] at h1
  exact absurd h1 (by simp)

/-- C1 (counterexample): with no cache record on disk at startup, a
successful first cycle followed by an Unreachable (`timeout`) cycle does
not get the first cycle's snapshot as a stale fallback — the second
cycle reports failure, because the in-memory reference is never updated
after startup. -/
theorem c1_counterexample :
    (runCycles [] [okInput, timeoutInput]).map (fun r => exceptOk r.result) =
      [true, false] ∧
    isConnectionError "timeout" = true ∧
    (async_update_data [] timeoutInput).result =
      .error "Error fetching printer data: timeout" :=
  ⟨rfl, rfl, rfl⟩

/-- C1 (amended): every cycle closes over the cache loaded at startup;
a successful cycle persists to disk but does not update the in-memory
fallback reference. Hence an Unreachable failure publishes the stale
copy of the startup cache when its data is truthy, and reports failure
otherwise — in particular always, when no record existed at startup. -/
theorem c1_amended_startup_cache_only (cached_data : Dict)
    (inps : List CycleInput) :
    runCycles cached_data inps = inps.map (async_update_data cached_data) ∧
    ∀ inp e, attemptCycle inp = .error e → isConnectionError e = true →
      (async_update_data cached_data inp).result =
        (if pyTruthyOpt (dget cached_data "data") = true then
          .ok (staleOf cached_data)
        else .error ("Error fetching printer data: " ++ e)) := by
  refine ⟨rfl, fun inp e hfail hconn => ?_⟩
  rw [async_update_data_error hfail]
  by_cases ht : pyTruthyOpt (dget cached_data "data") = true <;>
    simp [ht, hconn]

/-- C1 witness: at the startup cache `sampleCache` and a `timeout`
cycle, the amended statement evaluates to a stale publish. -/
theorem c1_amended_witness :
    (async_update_data sampleCache timeoutInput).result =
      (if pyTruthyOpt (dget sampleCache "data") = true then
        .ok (staleOf sampleCache)
      else .error ("Error fetching printer data: " ++ "timeout")) :=
  (c1_amended_startup_cache_only sampleCache []).2 timeoutInput "timeout" rfl rfl

/-- C2 (counterexample): the message `authentication failed` contains
the keyword `failed`, so the code classifies it as a connection error
and, with a valid cache, publishes the cached snapshot instead of
reporting failure. -/
theorem c2_counterexample :
    isConnectionError "authentication failed" = true ∧
    (async_update_data sampleCache authFailInput).result =
      .ok (staleOf sampleCache) ∧
    exceptOk (async_update_data sampleCache authFailInput).result = true :=
  ⟨rfl, rfl, rfl⟩

/-- C2 (amended): for every cycle failing with a message matching none
of the nine keywords (a true OtherFailure), the cycle reports failure
regardless of cache availability, persists nothing, and the previously
published state is left unchanged. -/
theorem c2_amended_other_failure (cached_data : Dict) (inp : CycleInput)
    (e : String) (prev : Option Dict)
    (hfail : attemptCycle inp = .error e)
    (hother : isConnectionError e = false) :
    (async_update_data cached_data inp).result =
      .error ("Error fetching printer data: " ++ e) ∧
    (async_update_data cached_data inp).saved = Option.none ∧
    publishStep prev (async_update_data cached_data inp).result = prev := by
  rw [async_update_data_error hfail]
  simp [hother, publishStep]

/-- C2 witness: a `bad credentials` failure with a valid cache still
reports failure and leaves the published state unchanged. -/
theorem c2_amended_witness :
    (async_update_data sampleCache badCredsInput).result =
      .error ("Error fetching printer data: " ++ "bad credentials") ∧
    (async_update_data sampleCache badCredsInput).saved = Option.none ∧
    publishStep (some []) (async_update_data sampleCache badCredsInput).result =
      some [] :=
  c2_amended_other_failure sampleCache badCredsInput "bad credentials"
    (some []) rfl rfl

/-- C3 (counterexample): a cycle whose queries all succeed but whose
cache save raises `disk full` does not publish the fresh snapshot — the
save failure is caught by the same handler and the cycle reports
failure (no cache was available here). -/
theorem c3_counterexample :
    exceptOk (assembleData saveFailInput.client) = true ∧
    saveFailInput.save_result = .error "disk full" ∧
    (async_update_data [] saveFailInput).result =
      .error "Error fetching printer data: disk full" :=
  ⟨rfl, rfl, rfl⟩

/-- C3 (amended): a save failure after a fully successful assembly is
propagated into the cycle's error handling: the fresh snapshot is not
published; the save error is classified like any other failure — stale
fallback when its message matches a connectivity keyword and the cache
is truthy, reported failure otherwise. Nothing is persisted. -/
theorem c3_amended_save_failure (cached_data : Dict) (inp : CycleInput)
    (d : Dict) (e : String)
    (hq : assembleData inp.client = .ok d)
    (hs : inp.save_result = .error e) :
    (async_update_data cached_data inp).result =
      (if pyTruthyOpt (dget cached_data "data") && isConnectionError e then
        .ok (staleOf cached_data)
      else .error ("Error fetching printer data: " ++ e)) ∧
    (async_update_data cached_data inp).saved = Option.none ∧
    (async_update_data cached_data inp).result ≠
      .ok (dset d "is_online" (PyVal.bool true)) := by
  have hfail := attemptCycle_error_of_save hq hs
  rw [async_update_data_error hfail]
  by_cases hc : (pyTruthyOpt (dget cached_data "data") &&
      isConnectionError e) = true
  · refine ⟨by simp [hc], by simp [hc], ?_⟩
    simp only [hc, if_true]
    intro hcontra
    exact staleOf_ne_freshMark cached_data d (Except.ok.inj hcontra)
  · refine ⟨by simp [hc], by simp [hc], ?_⟩
    simp [hc]

/-- C3 witness: the save-failure path evaluated at `sampleCache` and the
`disk full` save error. -/
theorem c3_amended_witness :
    (async_update_data sampleCache saveFailInput).result =
      (if pyTruthyOpt (dget sampleCache "data") &&
          isConnectionError "disk full" then
        .ok (staleOf sampleCache)
      else .error ("Error fetching printer data: " ++ "disk full")) ∧
    (async_update_data sampleCache saveFailInput).saved = Option.none ∧
    (async_update_data sampleCache saveFailInput).result ≠
      .ok (dset freshSample "is_online" (PyVal.bool true)) :=
  c3_amended_save_failure sampleCache saveFailInput freshSample "disk full"
    rfl rfl

/-- C4 (confirmed): an Unreachable failure with a well-formed, nonempty
cache record publishes exactly the cached snapshot with `is_online`
false and `offline_since` equal to the record's stored capture
timestamp; every other key's value is the cached one, unchanged. -/
theorem c4_stale_frame (d : Dict) (ts hostname : String) (inp : CycleInput)
    (e : String) (hfail : attemptCycle inp = .error e)
    (hconn : isConnectionError e = true) (hne : d ≠ []) :
    (async_update_data (cacheRecordOf d ts hostname) inp).result =
      .ok (staleOf (cacheRecordOf d ts hostname)) ∧
    dget (staleOf (cacheRecordOf d ts hostname)) "is_online" =
      some (PyVal.bool false) ∧
    dget (staleOf (cacheRecordOf d ts hostname)) "offline_since" =
      some (PyVal.str ts) ∧
    ∀ k, k ≠ "is_online" → k ≠ "offline_since" →
      dget (staleOf (cacheRecordOf d ts hostname)) k = dget d k := by
  have htru : pyTruthyOpt (dget (cacheRecordOf d ts hostname) "data") = true := by
    cases d with
    | nil => exact absurd rfl hne
    | cons p rest => rfl
  rw [async_update_data_error hfail]
  refine ⟨by simp [htru, hconn], dget_staleOf_is_online _, ?_, ?_⟩
  · rw [dget_staleOf_offline_since]
    rfl
  · intro k hk1 hk2
    unfold staleOf
    rw [dget_dset_other _ _ hk2, dget_dset_other _ _ hk1]
    rfl

/-- C4 witness: the frame property evaluated at the concrete cache
record behind `sampleCache` and a `timeout` failure. -/
theorem c4_witness :
    (async_update_data sampleCache timeoutInput).result =
      .ok (staleOf sampleCache) ∧
    dget (staleOf sampleCache) "is_online" = some (PyVal.bool false) ∧
    dget (staleOf sampleCache) "offline_since" =
      some (PyVal.str "2023-12-31T23:00:00") ∧
    dget (staleOf sampleCache) "x" = dget [("x", PyVal.int 1)] "x" := by
  have h := c4_stale_frame [("x", PyVal.int 1)] "2023-12-31T23:00:00"
    "10.0.0.2" timeoutInput "timeout" rfl rfl (List.cons_ne_nil _ _)
  exact ⟨h.1, h.2.1, h.2.2.1, h.2.2.2 "x" (by decide) (by decide)⟩

/-- C5 (confirmed): for every published snapshot (either branch that
returns a dict, over the cache shapes this integration writes),
`offline_since` is a present timestamp exactly when `is_online` is
`False`, and the snapshot is either wholly the fresh assembled dict
marked online or wholly the stale copy of the cached one — never a mix. -/
theorem c5_invariant (cached_data : Dict) (inp : CycleInput) (r : Dict)
    (hcache : cached_data = [] ∨
      ∃ d ts hostname, cached_data = cacheRecordOf d ts hostname)
    (hr : (async_update_data cached_data inp).result = .ok r) :
    ((∃ ts, dget r "offline_since" = some (PyVal.str ts)) ↔
      dget r "is_online" = some (PyVal.bool false)) ∧
    ((∃ d0, assembleData inp.client = .ok d0 ∧
        r = dset d0 "is_online" (PyVal.bool true)) ∨
      r = staleOf cached_data) := by
  cases hA : attemptCycle inp with
  | ok p =>
    obtain ⟨data, cache⟩ := p
    rw [async_update_data_ok hA] at hr
    have hdr : data = r := Except.ok.inj hr
    obtain ⟨d0, hass, hsave, hp⟩ := attemptCycle_ok_inv hA
    have hdata : data = dset d0 "is_online" (PyVal.bool true) :=
      congrArg Prod.fst hp
    subst hdr
    obtain ⟨hno_onl, hno_off⟩ := assembleData_ok_keys hass
    constructor
    · rw [hdata, dget_dset_other _ _ (by decide), dget_dset_self, hno_off]
      simp
    · exact Or.inl ⟨d0, hass, hdata⟩
  | error e =>
    rw [async_update_data_error hA] at hr
    by_cases hcond : (pyTruthyOpt (dget cached_data "data") &&
        isConnectionError e) = true
    · rw [if_pos hcond] at hr
      have hsr : staleOf cached_data = r := Except.ok.inj hr
      rcases hcache with hnil | ⟨d, ts, hostname, hrec⟩
      · subst hnil
        exact absurd hcond (by simp [dget, pyTruthyOpt])
      · subst hrec
        subst hsr
        constructor
        · rw [dget_staleOf_is_online, dget_staleOf_offline_since]
          constructor
          · intro _
            rfl
          · intro _
            exact ⟨ts, rfl⟩
        · exact Or.inr rfl
    · rw [if_neg hcond] at hr
      exact Except.noConfusion hr

/-- C5 witness: the invariant evaluated at the stale publish produced
from `sampleCache` by a `timeout` cycle. -/
theorem c5_witness :
    ((∃ ts, dget (staleOf sampleCache) "offline_since" =
        some (PyVal.str ts)) ↔
      dget (staleOf sampleCache) "is_online" = some (PyVal.bool false)) ∧
    ((∃ d0, assembleData timeoutInput.client = .ok d0 ∧
        staleOf sampleCache = dset d0 "is_online" (PyVal.bool true)) ∨
      staleOf sampleCache = staleOf sampleCache) :=
  c5_invariant sampleCache timeoutInput (staleOf sampleCache)
    (Or.inr ⟨[("x", PyVal.int 1)], "2023-12-31T23:00:00", "10.0.0.2", rfl⟩) rfl

/-- C7 (counterexample): a cycle in which a required query fails with
`timeout` while a valid cache exists does not fail — it publishes the
cached snapshot, so the claim that every such cycle fails is refuted. -/
theorem c7_counterexample :
    exceptOk (assembleData timeoutInput.client) = false ∧
    exceptOk (async_update_data sampleCache timeoutInput).result = true :=
  ⟨rfl, rfl⟩

/-- C7 (amended): when any required query fails, no partially populated
snapshot is produced or published: the cycle either fails with an error
wrapping the underlying message, or publishes the whole cached snapshot
marked stale; it never publishes an online-marked fresh dict, and it
persists nothing. -/
theorem c7_amended_no_partial (cached_data : Dict) (inp : CycleInput)
    (e : String) (hfail : assembleData inp.client = .error e) :
    ((async_update_data cached_data inp).result =
        .error ("Error fetching printer data: " ++ e) ∨
      (async_update_data cached_data inp).result = .ok (staleOf cached_data)) ∧
    (async_update_data cached_data inp).saved = Option.none ∧
    ∀ d0, (async_update_data cached_data inp).result ≠
      .ok (dset d0 "is_online" (PyVal.bool true)) := by
  have hA := attemptCycle_error_of_assemble hfail
  rw [async_update_data_error hA]
  by_cases hc : (pyTruthyOpt (dget cached_data "data") &&
      isConnectionError e) = true
  · refine ⟨Or.inr (by simp [hc]), by simp [hc], fun d0 => ?_⟩
    simp only [hc, if_true]
    intro hcontra
    exact staleOf_ne_freshMark cached_data d0 (Except.ok.inj hcontra)
  · refine ⟨Or.inl (by simp [hc]), by simp [hc], fun d0 => ?_⟩
    simp [hc]

/-- C7 witness: the amended statement evaluated with no startup cache
and a `timeout` assembly failure (error branch). -/
theorem c7_witness :
    ((async_update_data [] timeoutInput).result =
        .error ("Error fetching printer data: " ++ "timeout") ∨
      (async_update_data [] timeoutInput).result = .ok (staleOf [])) ∧
    (async_update_data [] timeoutInput).saved = Option.none ∧
    (async_update_data [] timeoutInput).result ≠
      .ok (dset freshSample "is_online" (PyVal.bool true)) := by
  have h := c7_amended_no_partial [] timeoutInput "timeout" rfl
  exact ⟨h.1, h.2.1, h.2.2 freshSample⟩

/-- C8 (confirmed): a fully successful cycle publishes the assembled
dict with `is_online = True` and no `offline_since` key, and persists
exactly the assembled snapshot with this cycle's capture timestamp and
the configured host; failing cycles (cache fallback included) never
persist anything. -/
theorem c8_success_publish_and_persist (cached_data : Dict)
    (inp : CycleInput) (d : Dict)
    (hq : assembleData inp.client = .ok d)
    (hs : inp.save_result = .ok ()) :
    (async_update_data cached_data inp).result =
      .ok (dset d "is_online" (PyVal.bool true)) ∧
    dget (dset d "is_online" (PyVal.bool true)) "is_online" =
      some (PyVal.bool true) ∧
    dget (dset d "is_online" (PyVal.bool true)) "offline_since" =
      Option.none ∧
    (async_update_data cached_data inp).saved =
      some (cacheRecordOf d inp.now inp.host) ∧
    ∀ (cd2 : Dict) (inp2 : CycleInput) (e2 : String),
      attemptCycle inp2 = .error e2 →
        (async_update_data cd2 inp2).saved = Option.none := by
  have hA := attemptCycle_ok_of hq hs
  rw [async_update_data_ok hA]
  refine ⟨rfl, dget_dset_self .., ?_, rfl, ?_⟩
  · rw [dget_dset_other _ _ (by decide)]
    exact (assembleData_ok_keys hq).2
  · intro cd2 inp2 e2 hfail2
    rw [async_update_data_error hfail2]
    by_cases hc : (pyTruthyOpt (dget cd2 "data") &&
        isConnectionError e2) = true <;> simp [hc]

/-- C8 witness: the success path evaluated at `okInput` (no startup
cache needed), plus the never-persist-on-fallback part at the stale
publish from `sampleCache`. -/
theorem c8_witness :
    (async_update_data [] okInput).result =
      .ok (dset freshSample "is_online" (PyVal.bool true)) ∧
    dget (dset freshSample "is_online" (PyVal.bool true)) "is_online" =
      some (PyVal.bool true) ∧
    dget (dset freshSample "is_online" (PyVal.bool true)) "offline_since" =
      Option.none ∧
    (async_update_data [] okInput).saved =
      some (cacheRecordOf freshSample okInput.now okInput.host) ∧
    (async_update_data sampleCache timeoutInput).saved = Option.none := by
  have h := c8_success_publish_and_persist [] okInput freshSample rfl rfl
  exact ⟨h.1, h.2.1, h.2.2.1, h.2.2.2.1,
    h.2.2.2.2 sampleCache timeoutInput "timeout" rfl⟩
